import Mathlib

/-!
Shallow embedding of `src/graph.rs` of the tabbycat DOT-generation library:
the data model (`Identity`, `AttrList`, `Stmt`, `Edge`, `SubGraph`, `Graph`),
the fluent builder operations, and the `Display` serializers, translated
definition by definition from the Rust source.  Rust `Vec` becomes `List`,
`Option` becomes `Option`, `&str`/`String` become `String`, machine integers
become `Nat`/`Int` (their `Display` is plain decimal, matching `toString`).
-/

set_option linter.unusedVariables false

namespace Tabbycat

/-- Graph kind, from `enum GraphType { Graph, DiGraph }`. -/
inductive GraphType where
  | graph
  | diGraph
deriving DecidableEq, Repr

/-- Scope selector of a default-attribute statement, from
`enum AttrType { Graph, Node, Edge }`. -/
inductive AttrType where
  | graph
  | node
  | edge
deriving DecidableEq, Repr

/-- Compass directions, from `enum Compass` (the source spells East `Ease`). -/
inductive Compass where
  | north
  | northEast
  | ease
  | southEast
  | south
  | southWest
  | west
  | northWest
  | central
deriving DecidableEq, Repr

/-- Literal tokens, from `enum Identity<'a>`.  Unsigned integer widths are
carried as `Nat`, signed ones as `Int` (Rust's `Display` for all of them is
plain decimal).  `Float`/`Double` payloads are carried as `Float`; no claim
depends on float formatting.  `ArrowName` carries the four optional slots of
`[Option<&'a str>; 4]`. -/
inductive Identity where
  | string (s : String)
  | usize (n : Nat)
  | isize (n : Int)
  | i8 (n : Int)
  | u8 (n : Nat)
  | i16 (n : Int)
  | u16 (n : Nat)
  | i32 (n : Int)
  | u32 (n : Nat)
  | bool (b : Bool)
  | i64 (n : Int)
  | u64 (n : Nat)
  | i128 (n : Int)
  | u128 (n : Nat)
  | float (x : Float)
  | double (x : Float)
  | quoted (s : String)
  | arrowName (a b c d : Option String)
  | rgba (r g b a : Nat)
  | hsv (h s v : Float)
deriving Repr

/-- Attribute list, from `struct AttrList<'a>(Vec<Vec<(Identity, Identity)>>)`:
an ordered list of bracket groups, each a list of key/value pairs. -/
structure AttrList where
  groups : List (List (Identity × Identity))
deriving Repr

/-- Node port, from `enum Port<'a> { ID(Identity, Option<Compass>), Compass(Compass) }`. -/
inductive Port where
  | id (i : Identity) (c : Option Compass)
  | compass (c : Compass)
deriving Repr

/-- Edge operator, from `enum EdgeOp { Arrow, Line }`. -/
inductive EdgeOp where
  | arrow
  | line
deriving DecidableEq, Repr

mutual
/-- Statements, from `enum Stmt<'a>`. -/
inductive Stmt where
  | edge (e : Edge)
  | node (id : Identity) (port : Option Port) (attr : Option AttrList)
  | attr (t : AttrType) (list : AttrList)
  | equation (a b : Identity)
  | subGraph (sub : SubGraph)

/-- Statement list, from `struct StmtList<'a>(Vec<Stmt<'a>>)`. -/
inductive StmtList where
  | mk (stmts : List Stmt)

/-- Subgraphs, from `enum SubGraph<'a>`: a (possibly named) `subgraph {...}`
or an anonymous `Cluster`. -/
inductive SubGraph where
  | subGraph (id : Option Identity) (stmts : StmtList)
  | cluster (stmts : StmtList)

/-- Edge endpoint, from `enum EdgeNode<'a>`: a node reference or a subgraph. -/
inductive EdgeNode where
  | node (id : Identity) (port : Option Port)
  | subGraph (sub : SubGraph)

/-- One chain step of an edge, from `struct EdgeBody<'a>`. -/
inductive EdgeBody where
  | mk (node : EdgeNode) (op : EdgeOp)

/-- Edges, from `struct Edge<'a> { node, body, attr }`. -/
inductive Edge where
  | mk (node : EdgeNode) (body : List EdgeBody) (attr : Option AttrList)
end

/-- Head endpoint of an edge (field `node` of `struct Edge`). -/
def Edge.node : Edge → EdgeNode
  | .mk n _ _ => n

/-- Chain of an edge (field `body` of `struct Edge`). -/
def Edge.body : Edge → List EdgeBody
  | .mk _ b _ => b

/-- Optional attribute list of an edge (field `attr` of `struct Edge`). -/
def Edge.attr : Edge → Option AttrList
  | .mk _ _ a => a

/-- Top-level graph, from `struct Graph<'a>`. -/
structure Graph where
  graph_type : GraphType
  strict : Bool
  id : Option Identity
  stmts : StmtList

/-! ## Identifier validation (`Identity::id`)

The Rust source checks the candidate against the anchored regex
`^[a-zA-Z\x{80}-\x{ff}_][a-zA-Z\x{80}-\x{ff}\d_]*$` using the `regex`
crate, whose character classes range over Unicode scalar values and whose
`\d` denotes the Unicode decimal-digit category `Nd` (not just `0-9`).
An anchored match of this pattern is: the string is nonempty, its first
character is in the head class, and every later character is in the tail
class. -/

/-- Codepoint ranges of the Unicode general category `Nd` (decimal digits),
the class matched by `\d` in the `regex` crate. -/
def ndRanges : List (Nat × Nat) :=
  [(0x30, 0x39), (0x660, 0x669), (0x6F0, 0x6F9), (0x7C0, 0x7C9),
   (0x966, 0x96F), (0x9E6, 0x9EF), (0xA66, 0xA6F), (0xAE6, 0xAEF),
   (0xB66, 0xB6F), (0xBE6, 0xBEF), (0xC66, 0xC6F), (0xCE6, 0xCEF),
   (0xD66, 0xD6F), (0xDE6, 0xDEF), (0xE50, 0xE59), (0xED0, 0xED9),
   (0xF20, 0xF29), (0x1040, 0x1049), (0x1090, 0x1099), (0x17E0, 0x17E9),
   (0x1810, 0x1819), (0x1946, 0x194F), (0x19D0, 0x19D9), (0x1A80, 0x1A89),
   (0x1A90, 0x1A99), (0x1B50, 0x1B59), (0x1BB0, 0x1BB9), (0x1C40, 0x1C49),
   (0x1C50, 0x1C59), (0xA620, 0xA629), (0xA8D0, 0xA8D9), (0xA900, 0xA909),
   (0xA9D0, 0xA9D9), (0xA9F0, 0xA9F9), (0xAA50, 0xAA59), (0xABF0, 0xABF9),
   (0xFF10, 0xFF19), (0x104A0, 0x104A9), (0x10D30, 0x10D39),
   (0x11066, 0x1106F), (0x110F0, 0x110F9), (0x11136, 0x1113F),
   (0x111D0, 0x111D9), (0x112F0, 0x112F9), (0x11450, 0x11459),
   (0x114D0, 0x114D9), (0x11650, 0x11659), (0x116C0, 0x116C9),
   (0x11730, 0x11739), (0x118E0, 0x118E9), (0x11950, 0x11959),
   (0x11C50, 0x11C59), (0x11D50, 0x11D59), (0x11DA0, 0x11DA9),
   (0x16A60, 0x16A69), (0x16AC0, 0x16AC9), (0x16B50, 0x16B59),
   (0x1D7CE, 0x1D7FF), (0x1E140, 0x1E149), (0x1E2F0, 0x1E2F9),
   (0x1E950, 0x1E959), (0x1FBF0, 0x1FBF9)]

/-- Membership in the Unicode `Nd` category, i.e. the `regex` crate's `\d`. -/
def isNd (c : Char) : Bool :=
  ndRanges.any fun r => r.1 ≤ c.toNat && c.toNat ≤ r.2

/-- The head character class `[a-zA-Z\x{80}-\x{ff}_]` of the pattern. -/
def headClass (c : Char) : Bool :=
  ('a' ≤ c && c ≤ 'z') || ('A' ≤ c && c ≤ 'Z') ||
    (0x80 ≤ c.toNat && c.toNat ≤ 0xff) || c = '_'

/-- The tail character class `[a-zA-Z\x{80}-\x{ff}\d_]` of the pattern. -/
def tailClass (c : Char) : Bool :=
  ('a' ≤ c && c ≤ 'z') || ('A' ≤ c && c ≤ 'Z') ||
    (0x80 ≤ c.toNat && c.toNat ≤ 0xff) || isNd c || c = '_'

/-- Anchored match of the pattern
`^[a-zA-Z\x{80}-\x{ff}_][a-zA-Z\x{80}-\x{ff}\d_]*$` against the whole
string (`Regex::is_match` on `Identity::id`'s anchored `PATTERN`). -/
def reMatches (s : String) : Bool :=
  match s.data with
  | [] => false
  | c :: rest => headClass c && rest.all tailClass

/-- Checked bare-identifier constructor, from `Identity::id`: return the
bare `Identity::String` when the pattern matches, otherwise the
`anyhow` error `"invalid identity format"`. -/
def Identity.id (data : String) : Except String Identity :=
  if reMatches data then .ok (.string data) else .error "invalid identity format"

/-! The total constructor `Identity::quoted` is the `Identity.quoted`
constructor itself (`Identity::quoted(data)` returns `Identity::Quoted(data)`
unconditionally). -/

/-! ## Builder operations -/

/-- Constructor `AttrList::new`. -/
def AttrList.new : AttrList :=
  ⟨[]⟩

/-- Builder `AttrList::new_bracket`: push an empty group. -/
def AttrList.new_bracket (l : AttrList) : AttrList :=
  ⟨l.groups ++ [[]]⟩

/-- Pushing a pair into the last group of a group list, creating a first
group when none exists: the shared shape of `AttrList::add` (which calls
`new_bracket` on an empty outer vector and then `last_mut().push`) and of
the nonempty branch of `Edge::add_attribute`. -/
def pushLast (gs : List (List (Identity × Identity))) (p : Identity × Identity) :
    List (List (Identity × Identity)) :=
  match gs with
  | [] => [[p]]
  | [g] => [g ++ [p]]
  | g :: rest => g :: pushLast rest p

/-- Builder `AttrList::add`: append the pair to the last group, creating the
first group if the list is empty. -/
def AttrList.add (l : AttrList) (key value : Identity) : AttrList :=
  ⟨pushLast l.groups (key, value)⟩

/-- Builder `AttrList::extend`: bulk-append pairs into the last group,
creating the first group if the list is empty. -/
def AttrList.extend (l : AttrList) (ps : List (Identity × Identity)) : AttrList :=
  match l.groups with
  | [] => ⟨[ps]⟩
  | gs => ⟨gs.dropLast ++ [gs.getLast! ++ ps]⟩

/-- Builder `AttrList::extend_list`: append whole groups. -/
def AttrList.extend_list (l : AttrList) (gs : List (List (Identity × Identity))) :
    AttrList :=
  ⟨l.groups ++ gs⟩

/-- Constructor `StmtList::new`. -/
def StmtList.new : StmtList :=
  ⟨[]⟩

/-- Underlying statement list (field `.0` of `StmtList`). -/
def StmtList.stmts : StmtList → List Stmt
  | .mk l => l

/-- Builder `StmtList::add`. -/
def StmtList.add (l : StmtList) (s : Stmt) : StmtList :=
  ⟨l.stmts ++ [s]⟩

/-- Builder `StmtList::add_node`. -/
def StmtList.add_node (l : StmtList) (id : Identity) (port : Option Port)
    (attr : Option AttrList) : StmtList :=
  ⟨l.stmts ++ [.node id port attr]⟩

/-- Builder `StmtList::add_attr`. -/
def StmtList.add_attr (l : StmtList) (t : AttrType) (list : AttrList) : StmtList :=
  ⟨l.stmts ++ [.attr t list]⟩

/-- Builder `StmtList::add_edge`. -/
def StmtList.add_edge (l : StmtList) (e : Edge) : StmtList :=
  ⟨l.stmts ++ [.edge e]⟩

/-- Builder `StmtList::add_subgraph`. -/
def StmtList.add_subgraph (l : StmtList) (sub : SubGraph) : StmtList :=
  ⟨l.stmts ++ [.subGraph sub]⟩

/-- Builder `StmtList::add_equation`. -/
def StmtList.add_equation (l : StmtList) (a b : Identity) : StmtList :=
  ⟨l.stmts ++ [.equation a b]⟩

/-- Constructor `SubGraph::cluster`. -/
def SubGraph.mkCluster (list : StmtList) : SubGraph :=
  .cluster list

/-- Constructor `SubGraph::subgraph`. -/
def SubGraph.mkSubgraph (id : Option Identity) (list : StmtList) : SubGraph :=
  .subGraph id list

/-- Constructor `Edge::head_node`: a chain with no body and no attributes. -/
def Edge.head_node (id : Identity) (port : Option Port) : Edge :=
  .mk (.node id port) [] none

/-- Constructor `Edge::head_subgraph`. -/
def Edge.head_subgraph (sub : SubGraph) : Edge :=
  .mk (.subGraph sub) [] none

/-- Builder `Edge::line_to_node`. -/
def Edge.line_to_node (e : Edge) (id : Identity) (port : Option Port) : Edge :=
  .mk e.node (e.body ++ [.mk (.node id port) .line]) e.attr

/-- Builder `Edge::line_to_subgraph`. -/
def Edge.line_to_subgraph (e : Edge) (sub : SubGraph) : Edge :=
  .mk e.node (e.body ++ [.mk (.subGraph sub) .line]) e.attr

/-- Builder `Edge::arrow_to_node`. -/
def Edge.arrow_to_node (e : Edge) (id : Identity) (port : Option Port) : Edge :=
  .mk e.node (e.body ++ [.mk (.node id port) .arrow]) e.attr

/-- Builder `Edge::arrow_to_subgraph`. -/
def Edge.arrow_to_subgraph (e : Edge) (sub : SubGraph) : Edge :=
  .mk e.node (e.body ++ [.mk (.subGraph sub) .arrow]) e.attr

/-- Builder `Edge::add_attrlist`: install the list when none is present;
otherwise append its groups to the existing list and push one fresh empty
group afterwards. -/
def Edge.add_attrlist (e : Edge) (list : AttrList) : Edge :=
  match e.attr with
  | none => .mk e.node e.body (some list)
  | some a => .mk e.node e.body (some ⟨a.groups ++ list.groups ++ [[]]⟩)

/-- Builder `Edge::add_attribute`: start a fresh one-group list when none is
present; otherwise push the pair into the last group (creating a group when
the outer vector is empty). -/
def Edge.add_attribute (e : Edge) (key value : Identity) : Edge :=
  match e.attr with
  | none => .mk e.node e.body (some ⟨[[(key, value)]]⟩)
  | some a => .mk e.node e.body (some ⟨pushLast a.groups (key, value)⟩)

/-! ## The serializer (`impl Display` for each type)

Each Rust `Display` impl writes fragments left to right into the formatter;
the embedding returns the concatenation of the same fragments in the same
order.  Folds over vectors become structural recursions emitting the
fragments in identical left-to-right order. -/

/-- Rust `{:x}` formatting of an unsigned integer: minimal-width lowercase
hexadecimal (no zero padding), as used by the `RGBA` arm of
`impl Display for Identity`. -/
def hexMin (n : Nat) : String :=
  String.mk (Nat.toDigits 16 n)

/-- Rust `{:?}` (Debug) formatting of one character inside a string literal:
escape quote, backslash, newline, carriage return and tab.  (The
`escape_debug` branch for unprintable/non-ASCII codepoints is not modelled;
no claim exercises it.) -/
def rustDebugEscapeChar (c : Char) : String :=
  if c = '"' then "\\\""
  else if c = '\\' then "\\\\"
  else if c = '\n' then "\\n"
  else if c = '\r' then "\\r"
  else if c = '\t' then "\\t"
  else String.singleton c

/-- Rust `{:?}` (Debug) formatting of a `&str`: surrounding double quotes
with the characters escaped, as used by the `Quoted` arm of
`impl Display for Identity`. -/
def rustDebugStr (s : String) : String :=
  "\"" ++ String.join (s.data.map rustDebugEscapeChar) ++ "\""

/-- Serializer `impl Display for Compass`. -/
def displayCompass : Compass → String
  | .north => "n"
  | .northEast => "ne"
  | .ease => "e"
  | .southEast => "se"
  | .south => "s"
  | .southWest => "sw"
  | .west => "w"
  | .northWest => "nw"
  | .central => "c"

/-- Serializer `impl Display for Identity`.  Integer variants print in plain
decimal (`{}` on Rust machine integers), `Bool` prints `true`/`false`,
`RGBA` prints `#` followed by the four bytes in minimal-width lowercase hex
(`{:x}`), `HSV` prints `h,+s,+v`, `Quoted` prints debug-quoted, and
`ArrowName` concatenates the present slots.  (Float formatting is
approximated by `toString`; no claim exercises it.) -/
def displayIdentity : Identity → String
  | .rgba r g b a => "#" ++ hexMin r ++ hexMin g ++ hexMin b ++ hexMin a
  | .hsv h s v => toString h ++ ",+" ++ toString s ++ ",+" ++ toString v
  | .string s => s
  | .usize n => toString n
  | .float x => toString x
  | .double x => toString x
  | .quoted s => rustDebugStr s
  | .isize n => toString n
  | .i8 n => toString n
  | .u8 n => toString n
  | .i16 n => toString n
  | .u16 n => toString n
  | .i32 n => toString n
  | .u32 n => toString n
  | .i64 n => toString n
  | .u64 n => toString n
  | .i128 n => toString n
  | .u128 n => toString n
  | .bool b => if b then "true" else "false"
  | .arrowName a b c d => a.getD "" ++ b.getD "" ++ c.getD "" ++ d.getD ""

/-- Serializer `impl Display for Port`. -/
def displayPort : Port → String
  | .id i (some c) => ":" ++ displayIdentity i ++ ":" ++ displayCompass c
  | .id x none => ":" ++ displayIdentity x
  | .compass x => ":" ++ displayCompass x

/-- One `key=value;` fragment of an attribute group. -/
def displayPair (p : Identity × Identity) : String :=
  displayIdentity p.1 ++ "=" ++ displayIdentity p.2 ++ ";"

/-- The pair fragments of one bracket group, left to right (the inner fold
of `impl Display for AttrList`). -/
def displayPairs : List (Identity × Identity) → String
  | [] => ""
  | p :: rest => displayPair p ++ displayPairs rest

/-- The `[...]` fragments of the bracket groups, left to right (the outer
fold of `impl Display for AttrList`). -/
def displayGroups : List (List (Identity × Identity)) → String
  | [] => ""
  | g :: rest => "[" ++ displayPairs g ++ "]" ++ displayGroups rest

/-- Serializer `impl Display for AttrList`. -/
def displayAttrList (l : AttrList) : String :=
  displayGroups l.groups

mutual
/-- Serializer `impl Display for Stmt`. -/
def displayStmt : Stmt → String
  | .equation a b => displayIdentity a ++ "=" ++ displayIdentity b
  | .edge e => displayEdge e
  | .node id port attr =>
      displayIdentity id ++
        (match port with | none => "" | some p => displayPort p) ++
        (match attr with | none => "" | some a => displayAttrList a)
  | .attr t list =>
      (match t with
       | .node => "node "
       | .graph => "graph "
       | .edge => "edge ") ++ displayAttrList list
  | .subGraph sub => displaySubGraph sub

/-- The `<stmt>;` fragments, left to right (the fold of
`impl Display for StmtList`). -/
def displayStmts : List Stmt → String
  | [] => ""
  | s :: rest => displayStmt s ++ ";" ++ displayStmts rest

/-- Serializer `impl Display for StmtList`. -/
def displayStmtList : StmtList → String
  | .mk l => displayStmts l

/-- Serializer `impl Display for SubGraph`. -/
def displaySubGraph : SubGraph → String
  | .subGraph id stmts =>
      "subgraph " ++
        (match id with | some i => displayIdentity i ++ " " | none => "") ++
        "\x7b" ++ displayStmtList stmts ++ "\x7d"
  | .cluster stmts => "\x7b" ++ displayStmtList stmts ++ "\x7d"

/-- Serializer `impl Display for EdgeNode`. -/
def displayEdgeNode : EdgeNode → String
  | .node id port =>
      displayIdentity id ++ (match port with | some p => displayPort p | none => "")
  | .subGraph g => displaySubGraph g

/-- Serializer `impl Display for EdgeBody`. -/
def displayEdgeBody : EdgeBody → String
  | .mk node op =>
      (match op with | .arrow => "->" | .line => "--") ++ displayEdgeNode node

/-- The body-segment fragments of an edge, left to right (the fold of
`impl Display for Edge`). -/
def displayEdgeBodies : List EdgeBody → String
  | [] => ""
  | b :: rest => displayEdgeBody b ++ displayEdgeBodies rest

/-- Serializer `impl Display for Edge`. -/
def displayEdge : Edge → String
  | .mk node body attr =>
      displayEdgeNode node ++ displayEdgeBodies body ++
        (match attr with | some a => displayAttrList a | none => "")
end

/-- Serializer `impl Display for Graph`: optional `strict `, the graph-kind
keyword with trailing space, the optional id, then `{stmts}`. -/
def displayGraph (g : Graph) : String :=
  (if g.strict then "strict " else "") ++
    (match g.graph_type with
     | .graph => "graph "
     | .diGraph => "digraph ") ++
    (match g.id with | some id => displayIdentity id | none => "") ++
    "\x7b" ++ displayStmtList g.stmts ++ "\x7d"

/-! ## The derived builder (`#[derive(Builder)]` with `pattern = "owned"`)

`derive_builder` generates a `GraphBuilder` holding each field in an
`Option`, starting from all-`None` (`GraphBuilder::default()`); each setter
stores `Some`, the `id` setter additionally wraps its argument because of
`#[builder(setter(strip_option))]`; `build()` unwraps the fields in
declaration order and fails with an `UninitializedFieldError` naming the
first unset field, since no field carries `#[builder(default)]`.  The error
is modelled as the offending field's name. -/

structure GraphBuilder where
  graph_type : Option GraphType
  strict : Option Bool
  id : Option (Option Identity)
  stmts : Option StmtList

/-- The all-unset starting builder, `GraphBuilder::default()`. -/
def GraphBuilder.default : GraphBuilder :=
  ⟨none, none, none, none⟩

/-- Setter `GraphBuilder::graph_type`. -/
def GraphBuilder.setGraphType (b : GraphBuilder) (v : GraphType) : GraphBuilder :=
  { b with graph_type := some v }

/-- Setter `GraphBuilder::strict`. -/
def GraphBuilder.setStrict (b : GraphBuilder) (v : Bool) : GraphBuilder :=
  { b with strict := some v }

/-- Setter `GraphBuilder::id` (with `strip_option`, it takes a bare
`Identity` and stores `Some(Some(v))`). -/
def GraphBuilder.setId (b : GraphBuilder) (v : Identity) : GraphBuilder :=
  { b with id := some (some v) }

/-- Setter `GraphBuilder::stmts`. -/
def GraphBuilder.setStmts (b : GraphBuilder) (v : StmtList) : GraphBuilder :=
  { b with stmts := some v }

/-- The generated `GraphBuilder::build`. -/
def GraphBuilder.build (b : GraphBuilder) : Except String Graph :=
  match b.graph_type with
  | none => .error "graph_type"
  | some t =>
    match b.strict with
    | none => .error "strict"
    | some st =>
      match b.id with
      | none => .error "id"
      | some i =>
        match b.stmts with
        | none => .error "stmts"
        | some s => .ok ⟨t, st, i, s⟩

/-! ## The spec's reading of the identifier grammar

For comparison with `Identity.id`, the bare-identifier grammar exactly as
the specification words it: `^[A-Za-z\x80-\xff_][A-Za-z\x80-\xff0-9_]*$`,
with the digit class written literally as `0-9`. -/

/-- Head class `[A-Za-z\x80-\xff_]` of the spec's grammar. -/
def specHeadClass (c : Char) : Bool :=
  ('A' ≤ c && c ≤ 'Z') || ('a' ≤ c && c ≤ 'z') ||
    (0x80 ≤ c.toNat && c.toNat ≤ 0xff) || c = '_'

/-- Tail class `[A-Za-z\x80-\xff0-9_]` of the spec's grammar. -/
def specTailClass (c : Char) : Bool :=
  specHeadClass c || ('0' ≤ c && c ≤ '9')

/-- Whole-string match of the spec's grammar
`^[A-Za-z\x80-\xff_][A-Za-z\x80-\xff0-9_]*$`. -/
def specBareIdGrammar (s : String) : Bool :=
  match s.data with
  | [] => false
  | c :: rest => specHeadClass c && rest.all specTailClass

/-! ## Helper lemmas -/

theorem join_cons' (a : String) (l : List String) :
    String.join (a :: l) = a ++ String.join l := by
  apply String.ext
  simp [String.data_join, String.data_append]

theorem displayPairs_eq_join (g : List (Identity × Identity)) :
    displayPairs g = String.join (g.map displayPair) := by
  induction g with
  | nil => rfl
  | cons p rest ih => simp [displayPairs, join_cons', ih]

theorem displayGroups_eq_join (gs : List (List (Identity × Identity))) :
    displayGroups gs = String.join (gs.map fun g => "[" ++ displayPairs g ++ "]") := by
  induction gs with
  | nil => rfl
  | cons g rest ih => simp [displayGroups, join_cons', ih, String.append_assoc]

theorem displayStmts_eq_join (l : List Stmt) :
    displayStmts l = String.join (l.map fun s => displayStmt s ++ ";") := by
  induction l with
  | nil => rfl
  | cons s rest ih => simp [displayStmts, join_cons', ih, String.append_assoc]

/-! ## The claims -/

/-- C1: the strict `DiGraph` with id `G`, one node statement for `start`
and one edge `start -> end` carrying the single attribute `color=red`
serializes to exactly `strict digraph G{start;start->end[color=red;];}`. -/
theorem c1_end_to_end :
    displayGraph
      ⟨.diGraph, true, some (.string "G"),
        (StmtList.new.add_node (.string "start") none none).add_edge
          (((Edge.head_node (.string "start") none).arrow_to_node
              (.string "end") none).add_attribute (.string "color") (.string "red"))⟩ =
    "strict digraph G{start;start->end[color=red;];}" := by
  rfl

/-- C3: on an edge whose attribute list is the single group `[(k1,v1)]`,
`add_attribute` appends into that group; `add_attrlist` with the one-group
list `[[(k2,v2)]]` appends the group and opens a trailing empty group; and a
further `add_attribute` then fills that trailing group. -/
theorem c3_edge_attr_merge (e : Edge) (k1 v1 k2 v2 k3 v3 : Identity)
    (h : e.attr = some ⟨[[(k1, v1)]]⟩) :
    (e.add_attribute k2 v2).attr = some ⟨[[(k1, v1), (k2, v2)]]⟩ ∧
    (e.add_attrlist ⟨[[(k2, v2)]]⟩).attr = some ⟨[[(k1, v1)], [(k2, v2)], []]⟩ ∧
    ((e.add_attrlist ⟨[[(k2, v2)]]⟩).add_attribute k3 v3).attr =
      some ⟨[[(k1, v1)], [(k2, v2)], [(k3, v3)]]⟩ := by
  cases e with
  | mk n b a =>
    simp only [Edge.attr] at h
    subst h
    refine ⟨rfl, rfl, rfl⟩

/-- Witness for C3 at a concrete edge with attribute list `[[(k1,v1)]]`. -/
theorem c3_edge_attr_merge_witness :
    ((Edge.mk (.node (.string "n") none) []
        (some ⟨[[(.string "k1", .string "v1")]]⟩)).add_attribute
      (.string "k2") (.string "v2")).attr =
    some ⟨[[(.string "k1", .string "v1"), (.string "k2", .string "v2")]]⟩ :=
  (c3_edge_attr_merge (Edge.mk (.node (.string "n") none) []
    (some ⟨[[(.string "k1", .string "v1")]]⟩))
    (.string "k1") (.string "v1") (.string "k2") (.string "v2")
    (.string "k3") (.string "v3") rfl).1

/-- C4 counterexample: running the builder with only `graph_type` and
`stmts` set does not produce a graph; `build()` fails with an
uninitialized-field error for `strict` (no field has a
`derive_builder` default). -/
theorem c4_counterexample :
    ((GraphBuilder.default.setGraphType .diGraph).setStmts (.mk [])).build =
      .error "strict" := by
  rfl

/-- C4 as amended: every one of the four fields must be set; with only
`graph_type` and `stmts` set, `build()` always fails on `strict`, and with
all four set it succeeds (the setters themselves are total, and `id`'s
stripped setter makes the built id always `some`). -/
theorem c4_builder :
    (∀ t s, ((GraphBuilder.default.setGraphType t).setStmts s).build =
      .error "strict") ∧
    (∀ t b i s,
      ((((GraphBuilder.default.setGraphType t).setStrict b).setId i).setStmts s).build =
        .ok ⟨t, b, some i, s⟩) := by
  exact ⟨fun t s => rfl, fun t b i s => rfl⟩

/-- C5: evaluation of the `RGBA` serializer at the failing input: the code
formats each byte with minimal-width `{:x}`, so `RGBA(0,1,2,3)` renders as
`#0123` and not as the claimed 9-character `#00010203`; two-digit channels
only appear for bytes at least `0x10`. -/
theorem c5_rgba_eval :
    displayIdentity (.rgba 0 1 2 3) = "#0123" ∧
    displayIdentity (.rgba 0 1 2 3) ≠ "#00010203" ∧
    displayIdentity (.rgba 255 171 16 2) = "#ffab102" := by
  refine ⟨rfl, ?_, rfl⟩
  decide

/-- C9: the serializer is a pure function of the tree's structure:
structurally equal graphs render to identical strings (and `displayGraph`
is total by construction). -/
theorem c9_render_deterministic (g₁ g₂ : Graph) (h : g₁ = g₂) :
    displayGraph g₁ = displayGraph g₂ := by
  rw [h]

/-- Witness for C9 at a concrete graph. -/
theorem c9_render_deterministic_witness :
    displayGraph ⟨.diGraph, true, some (.string "x"), .mk []⟩ =
      displayGraph ⟨.diGraph, true, some (.string "x"), .mk []⟩ :=
  c9_render_deterministic ⟨.diGraph, true, some (.string "x"), .mk []⟩
    ⟨.diGraph, true, some (.string "x"), .mk []⟩ rfl

/-- C10: `add_attrlist` on an edge with no attribute list yet installs the
list exactly as given, with no trailing empty group appended. -/
theorem c10_add_attrlist_none (e : Edge) (l : AttrList) (h : e.attr = none) :
    (e.add_attrlist l).attr = some l := by
  cases e with
  | mk n b a =>
    simp only [Edge.attr] at h
    subst h
    rfl

/-- Witness for C10: `Edge::head_node(a, None).add_attrlist(L)` has
attribute list exactly `L`. -/
theorem c10_add_attrlist_none_witness :
    ((Edge.head_node (.string "a") none).add_attrlist
        ⟨[[(.string "k", .string "v")]]⟩).attr =
      some ⟨[[(.string "k", .string "v")]]⟩ :=
  c10_add_attrlist_none (Edge.head_node (.string "a") none)
    ⟨[[(.string "k", .string "v")]]⟩ rfl

/-- C6: the attribute-list serializer renders each bracket group in order as
`[` pairs `]` with every pair `key=value;`-terminated and empty groups as
`[]`; the builder chain `new().add(k1,v1).new_bracket().add(k2,v2)` renders
`[k1=v1;][k2=v2;]`, and `new().add(k,v)` renders `[k=v;]` (first group
created implicitly). -/
theorem c6_attrlist_render :
    (∀ gs, displayAttrList ⟨gs⟩ =
      String.join (gs.map fun g =>
        "[" ++ String.join (g.map fun p =>
          displayIdentity p.1 ++ "=" ++ displayIdentity p.2 ++ ";") ++ "]")) ∧
    displayAttrList ⟨[[]]⟩ = "[]" ∧
    (∀ k1 v1 k2 v2,
      displayAttrList (((AttrList.new.add k1 v1).new_bracket).add k2 v2) =
        "[" ++ displayIdentity k1 ++ "=" ++ displayIdentity v1 ++ ";" ++ "]" ++
          "[" ++ displayIdentity k2 ++ "=" ++ displayIdentity v2 ++ ";" ++ "]") ∧
    (∀ k v, displayAttrList (AttrList.new.add k v) =
      "[" ++ displayIdentity k ++ "=" ++ displayIdentity v ++ ";" ++ "]") := by
  refine ⟨?_, rfl, ?_, ?_⟩
  · intro gs
    simp only [displayAttrList, displayGroups_eq_join, displayPairs_eq_join]
    rfl
  · intro k1 v1 k2 v2
    simp [displayAttrList, AttrList.new, AttrList.add, AttrList.new_bracket,
      pushLast, displayGroups, displayPairs, displayPair,
      String.append_assoc, String.append_empty]
    rw [show (";][" : String) = ";]" ++ "[" from rfl, String.append_assoc]
  · intro k v
    simp [displayAttrList, AttrList.new, AttrList.add, pushLast,
      displayGroups, displayPairs, displayPair,
      String.append_assoc, String.append_empty]

/-- C7: the statement-list serializer is the concatenation, in list order,
of each statement's rendering followed by `;` (including after the last);
in particular `[Equation(a,b), Equation(c,d)]` renders `a=b;c=d;`. -/
theorem c7_stmtlist_render :
    (∀ l, displayStmtList (.mk l) =
      String.join (l.map fun s => displayStmt s ++ ";")) ∧
    (∀ a b c d : Identity,
      displayStmtList (.mk [.equation a b, .equation c d]) =
        displayIdentity a ++ "=" ++ displayIdentity b ++ ";" ++
          displayIdentity c ++ "=" ++ displayIdentity d ++ ";") := by
  constructor
  · intro l
    simp [displayStmtList, displayStmts_eq_join]
  · intro a b c d
    simp [displayStmtList, displayStmts, displayStmt,
      String.append_assoc, String.append_empty]

/-- C8: `cluster(stmts)` renders as `{stmts}`; `subgraph(Some(id), stmts)`
renders as `subgraph id {stmts}` with a space between the id and the brace;
the anonymous `subgraph(None, stmts)` renders as `subgraph {stmts}`, with
nothing inserted between the keyword's rendering (`subgraph `) and the
brace. -/
theorem c8_subgraph_render :
    (∀ stmts, displaySubGraph (SubGraph.mkCluster stmts) =
      "\x7b" ++ displayStmtList stmts ++ "\x7d") ∧
    (∀ i stmts, displaySubGraph (SubGraph.mkSubgraph (some i) stmts) =
      "subgraph " ++ displayIdentity i ++ " " ++ "\x7b" ++ displayStmtList stmts ++ "\x7d") ∧
    (∀ stmts, displaySubGraph (SubGraph.mkSubgraph none stmts) =
      "subgraph " ++ "\x7b" ++ displayStmtList stmts ++ "\x7d") := by
  refine ⟨fun stmts => rfl, ?_, ?_⟩
  · intro i stmts
    simp [displaySubGraph, SubGraph.mkSubgraph, String.append_assoc]
  · intro stmts
    simp [displaySubGraph, SubGraph.mkSubgraph,
      String.append_assoc, String.append_empty, String.empty_append]

/-- C2 counterexample: `Identity::id` accepts `a` followed by U+0660
(ARABIC-INDIC DIGIT ZERO), because the `regex` crate's `\d` matches the
whole Unicode `Nd` category, while the claimed grammar with digit class
`0-9` rejects that string — so the claimed equivalence fails at this
input. -/
theorem c2_counterexample :
    Identity.id "a٠" = .ok (.string "a٠") ∧
    specBareIdGrammar "a٠" = false :=
  ⟨rfl, rfl⟩

/-- C2 as amended: `Identity::id(s)` succeeds with the bare identity exactly
when `s` is nonempty, its first character is in `[A-Za-z\x80-\xff_]`, and
every later character is in `[A-Za-z\x80-\xff\d_]` with `\d` the Unicode
decimal-digit category `Nd` (not just `0-9`); `id("foo_1")` succeeds and
renders bare, `id("1foo")` and `id("foo bar")` fail with the
invalid-identifier error, and quoted construction of `foo bar` renders with
surrounding double quotes. -/
theorem c2_id_validation :
    (∀ s : String, Identity.id s = .ok (.string s) ↔
      ∃ c rest, s.data = c :: rest ∧ headClass c = true ∧
        ∀ x ∈ rest, tailClass x = true) ∧
    Identity.id "foo_1" = .ok (.string "foo_1") ∧
    displayIdentity (.string "foo_1") = "foo_1" ∧
    Identity.id "1foo" = .error "invalid identity format" ∧
    Identity.id "foo bar" = .error "invalid identity format" ∧
    displayIdentity (Identity.quoted "foo bar") = "\"foo bar\"" := by
  refine ⟨?_, rfl, rfl, rfl, rfl, rfl⟩
  intro s
  constructor
  · intro h
    have hm : reMatches s = true := by
      by_contra hn
      rw [Identity.id, if_neg hn] at h
      exact Except.noConfusion h
    cases hd : s.data with
    | nil =>
      rw [show reMatches s = false by simp only [reMatches, hd]] at hm
      exact Bool.noConfusion hm
    | cons c rest =>
      simp only [reMatches, hd, Bool.and_eq_true, List.all_eq_true] at hm
      exact ⟨c, rest, rfl, hm.1, fun x hx => hm.2 x hx⟩
  · rintro ⟨c, rest, hd, h1, h2⟩
    have hm : reMatches s = true := by
      simp only [reMatches, hd, Bool.and_eq_true, List.all_eq_true]
      exact ⟨h1, fun x hx => h2 x hx⟩
    rw [Identity.id, if_pos hm]

end Tabbycat
